import Mathlib

/-!
Verification development for the LifeShield quote/policy issuance core.

The definitions below are a shallow embedding of the source:
  - the pricing function `calculatePremium` (src/docs/DetailedDesign.md, section 4.3.1),
  - the quote acceptance flow `acceptQuote` (src/docs/DetailedDesign.md, section 4.3.2),
  - the notification consumer loop (src/docs/DetailedDesign.md, sections 5.1 and 5.2),
  - the request id middleware (src/services/lifeshield-api/src/middleware/requestId.js),
  - the global error handler (src/services/lifeshield-api/src/app.js).
Numeric arithmetic is modelled exactly over the rationals.
-/

namespace LifeShield

/-! ## Pricing engine -/

inductive OccupationRisk where
  | LOW
  | MEDIUM
  | HIGH
deriving DecidableEq, Repr

structure RiskProfile where
  age : Nat
  smoker : Bool
  occupationRisk : OccupationRisk
deriving DecidableEq, Repr

/-- Base monthly rate per unit coverage, the constant 0.0005 in the source. -/
def baseRate : ℚ := 5 / 10000

/-- Modelled from the spec: the source calls a helper named roundToTwoDecimals that
is not defined anywhere under src; the spec fixes the policy as rounding to two
decimal places using round-half-up. -/
def roundToTwoDecimals (x : ℚ) : ℚ := ((⌊x * 100 + 1 / 2⌋ : ℤ) : ℚ) / 100

/-- The pricing function from src/docs/DetailedDesign.md section 4.3.1.
The risk factor starts at 1.0, adds one age bracket increment through an
if / else-if chain, then the smoker and occupation increments, and the result
is coverageAmount * baseRate * riskFactor / 12 rounded to two decimals.
The termYears argument is accepted but, as in the source, not used by the formula. -/
def calculatePremium (p : RiskProfile) (coverageAmount : ℚ) (termYears : Int) : ℚ :=
  let r1 : ℚ :=
    if p.age > 50 then 1 + 3 / 10
    else if p.age > 40 then 1 + 2 / 10
    else if p.age > 30 then 1 + 1 / 10
    else 1
  let r2 : ℚ := if p.smoker then r1 + 5 / 10 else r1
  let r3 : ℚ := if p.occupationRisk = OccupationRisk.MEDIUM then r2 + 1 / 10 else r2
  let r4 : ℚ := if p.occupationRisk = OccupationRisk.HIGH then r3 + 25 / 100 else r3
  roundToTwoDecimals (coverageAmount * baseRate * r4 / 12)

/-- Spec-side decomposition of the risk multiplier: the single age bracket
increment described by the spec (+0.1 above 30, +0.2 above 40, +0.3 above 50). -/
def ageIncrement (age : Nat) : ℚ :=
  if age > 50 then 3 / 10
  else if age > 40 then 2 / 10
  else if age > 30 then 1 / 10
  else 0

/-- Spec-side occupation tier increment (+0.1 MEDIUM, +0.25 HIGH, 0 LOW). -/
def occupationIncrement : OccupationRisk → ℚ
  | OccupationRisk.LOW => 0
  | OccupationRisk.MEDIUM => 1 / 10
  | OccupationRisk.HIGH => 25 / 100

/-- Spec-side risk multiplier: starts at 1.0 and adds the age bracket,
smoker and occupation increments. -/
def riskMultiplier (p : RiskProfile) : ℚ :=
  1 + ageIncrement p.age + (if p.smoker then 5 / 10 else 0)
    + occupationIncrement p.occupationRisk

/-- Request validation of the quote creation route
(src/docs/DetailedDesign.md section 4.1.3): coverageAmount > 0 and termYears > 0. -/
def validateQuoteInput (coverageAmount : ℚ) (termYears : Int) : Bool :=
  decide (0 < coverageAmount) && decide (0 < termYears)

/-! ## Quote / Policy issuance state machine -/

inductive QuoteStatus where
  | PENDING
  | ACCEPTED
  | EXPIRED
deriving DecidableEq, Repr

inductive PolicyStatus where
  | ACTIVE
  | LAPSED
  | CANCELLED
deriving DecidableEq, Repr

/-- DATEONLY values; addYears models endDate = startDate + termYears. -/
structure Date where
  year : Int
  month : Nat
  day : Nat
deriving DecidableEq, Repr

def Date.addYears (d : Date) (n : Nat) : Date :=
  { d with year := d.year + n }

structure Quote where
  id : Nat
  customerId : Nat
  coverageAmount : ℚ
  termYears : Nat
  monthlyPremium : ℚ
  status : QuoteStatus
deriving DecidableEq, Repr

structure Policy where
  id : Nat
  policyNumber : String
  customerId : Nat
  quoteId : Nat
  startDate : Date
  endDate : Date
  status : PolicyStatus
deriving DecidableEq, Repr

/-- The POLICY_ISSUED message wire shape published to SQS
(src/docs/DetailedDesign.md section 4.3.2 step 7, FR-13). -/
structure PublishedEvent where
  type : String
  policyId : Nat
  customerId : Nat
  issuedAt : Nat
deriving DecidableEq, Repr

/-- The policy service database plus the list of messages published to SQS. -/
structure PolicyServiceState where
  quotes : List Quote
  policies : List Policy
  publishedEvents : List PublishedEvent
  nextPolicyId : Nat
deriving DecidableEq, Repr

inductive AcceptError where
  | QuoteNotFound
  | InvalidStateTransition
deriving DecidableEq, Repr

def findQuote (s : PolicyServiceState) (quoteId : Nat) : Option Quote :=
  s.quotes.find? (fun q => q.id == quoteId)

/-- The row update of step 5: set the quote with the given id to ACCEPTED. -/
def acceptUpdate (quoteId : Nat) (q : Quote) : Quote :=
  if q.id == quoteId then { q with status := QuoteStatus.ACCEPTED } else q

/-- Steps 2 to 6 of src/docs/DetailedDesign.md section 4.3.2: fetch the quote,
check its status, and run the transaction that creates the Policy and updates
the Quote to ACCEPTED. The returned state is the committed database; note that
it carries no event record of any kind. -/
def acceptQuoteCommit (s : PolicyServiceState) (quoteId : Nat) (today : Date)
    (nowMs : Nat) : Except AcceptError (PolicyServiceState × Policy) :=
  match findQuote s quoteId with
  | none => Except.error AcceptError.QuoteNotFound
  | some quote =>
    if quote.status ≠ QuoteStatus.PENDING then
      Except.error AcceptError.InvalidStateTransition
    else
      let policy : Policy :=
        { id := s.nextPolicyId
          policyNumber := "LS-" ++ toString nowMs ++ "-" ++ toString quote.id
          customerId := quote.customerId
          quoteId := quote.id
          startDate := today
          endDate := today.addYears quote.termYears
          status := PolicyStatus.ACTIVE }
      let committed : PolicyServiceState :=
        { s with
          policies := s.policies ++ [policy]
          quotes := s.quotes.map (acceptUpdate quoteId)
          nextPolicyId := s.nextPolicyId + 1 }
      Except.ok (committed, policy)

/-- Step 7 of section 4.3.2: after the transaction has committed, publish the
POLICY_ISSUED event to SQS. -/
def publishPolicyIssued (s : PolicyServiceState) (p : Policy) (nowMs : Nat) :
    PolicyServiceState :=
  { s with publishedEvents := s.publishedEvents ++
      [{ type := "POLICY_ISSUED", policyId := p.id, customerId := p.customerId,
         issuedAt := nowMs }] }

/-- The full accept flow of section 4.3.2: transaction first, then the SQS
publish, then the policy is returned to the caller. -/
def acceptQuote (s : PolicyServiceState) (quoteId : Nat) (today : Date)
    (nowMs : Nat) : Except AcceptError (PolicyServiceState × Policy) :=
  match acceptQuoteCommit s quoteId today nowMs with
  | Except.error e => Except.error e
  | Except.ok (committed, policy) =>
      Except.ok (publishPolicyIssued committed policy nowMs, policy)

/-! ## Notification consumer -/

/-- Outcome shape of JSON.parse on a message body: either the parse throws
(malformed body) or it yields the wire fields of section 6. -/
inductive MessageBody where
  | malformed (raw : String)
  | parsed (type : String) (policyId : Nat) (customerId : Nat) (issuedAt : Nat)
deriving DecidableEq, Repr

structure QueueMessage where
  body : MessageBody
  receiptHandle : String
deriving DecidableEq, Repr

/-- The welcome email side effect logged by handlePolicyIssued. -/
structure Notification where
  policyId : Nat
  customerId : Nat
deriving DecidableEq, Repr

/-- Observable consumer state: the side effects performed, the log lines, the
metrics counters, and a dead letter channel. The source never writes to the
dead letter channel (the catch block of the poll loop only logs and counts;
moving to a DLQ appears there only as a comment). -/
structure ConsumerState where
  sideEffects : List Notification
  warnLogs : List String
  errorLogs : List String
  processedCount : Nat
  failedCount : Nat
  deadLetterQueue : List QueueMessage
deriving DecidableEq, Repr

inductive HandleError where
  | parseFailure
deriving DecidableEq, Repr

/-- handleMessage of src/docs/DetailedDesign.md section 5.2: parse the body
(a malformed body makes JSON.parse throw), dispatch POLICY_ISSUED to
handlePolicyIssued, and log a warning for any other type. -/
def handleMessage (s : ConsumerState) (m : QueueMessage) :
    Except HandleError ConsumerState :=
  match m.body with
  | MessageBody.malformed _ => Except.error HandleError.parseFailure
  | MessageBody.parsed t policyId customerId _ =>
      if t == "POLICY_ISSUED" then
        Except.ok { s with sideEffects := s.sideEffects ++ [⟨policyId, customerId⟩] }
      else
        Except.ok { s with warnLogs := s.warnLogs ++ ["Unhandled message type"] }

/-- One iteration of the inner loop of poll (section 5.1): try handleMessage;
on success delete the message and count it processed; on any error log it and
count it failed, leaving the message in the queue. The boolean reports whether
the message was deleted. -/
def processMessage (s : ConsumerState) (m : QueueMessage) : ConsumerState × Bool :=
  match handleMessage s m with
  | Except.ok s1 => ({ s1 with processedCount := s1.processedCount + 1 }, true)
  | Except.error _ =>
      ({ s with errorLogs := s.errorLogs ++ ["Error processing SQS message"],
                failedCount := s.failedCount + 1 }, false)

/-- The inner for loop of poll over one received batch, returning the final
state and the per-message deletion outcomes in order. -/
def pollBatch (s : ConsumerState) : List QueueMessage → ConsumerState × List Bool
  | [] => (s, [])
  | m :: rest =>
      let step := processMessage s m
      let tail := pollBatch step.1 rest
      (tail.1, step.2 :: tail.2)

/-! ## HTTP glue: request id middleware and error handler -/

/-- The JavaScript expression a || b on a possibly absent string: the empty
string and an absent value are both falsy. -/
def jsStringOr (a : Option String) (b : String) : String :=
  match a with
  | some s => if s = "" then b else s
  | none => b

/-- What the middleware writes: req.requestId and the X-Request-Id header. -/
structure RequestIdEffect where
  reqRequestId : String
  responseHeader : String
deriving DecidableEq, Repr

/-- requestIdMiddleware of src/services/lifeshield-api/src/middleware/requestId.js:
take the incoming x-request-id header or a fresh uuid, store it on the request
and set it as the X-Request-Id response header. -/
def requestIdMiddleware (incomingHeader : Option String) (freshUuid : String) :
    RequestIdEffect :=
  let requestId := jsStringOr incomingHeader freshUuid
  { reqRequestId := requestId, responseHeader := requestId }

/-- An error object reaching the error middleware: message, stack, and a
status code that this handler never consults. -/
structure JsError where
  message : String
  stack : String
  statusCode : Option Nat
deriving DecidableEq, Repr

structure ErrorLogEntry where
  logMessage : String
  errorMessage : String
  errorStack : String
  requestId : String
deriving DecidableEq, Repr

structure HttpErrorResponse where
  status : Nat
  errorCode : String
  message : String
deriving DecidableEq, Repr

/-- The error handling middleware of src/services/lifeshield-api/src/app.js:
log the error message and stack with the request id, then answer 500 with a
fixed INTERNAL_ERROR body. -/
def errorHandler (err : JsError) (reqRequestId : String) :
    ErrorLogEntry × HttpErrorResponse :=
  (⟨"Unhandled error", err.message, err.stack, reqRequestId⟩,
   ⟨500, "INTERNAL_ERROR", "Unexpected server error"⟩)

/-! ## Concrete sample data used by witnesses and counterexamples -/

def sampleDate : Date := ⟨2025, 1, 15⟩

def sampleQuote : Quote :=
  { id := 1, customerId := 42, coverageAmount := 10000000, termYears := 20
    monthlyPremium := 45833 / 100, status := QuoteStatus.PENDING }

def sampleState : PolicyServiceState :=
  { quotes := [sampleQuote], policies := [], publishedEvents := [], nextPolicyId := 1 }

def samplePolicy : Policy :=
  { id := 1, policyNumber := "LS-1000-1", customerId := 42, quoteId := 1
    startDate := sampleDate, endDate := ⟨2045, 1, 15⟩, status := PolicyStatus.ACTIVE }

/-- The committed database after accepting the sample quote, before publish. -/
def sampleCommitted : PolicyServiceState :=
  { quotes := [{ sampleQuote with status := QuoteStatus.ACCEPTED }]
    policies := [samplePolicy], publishedEvents := [], nextPolicyId := 2 }

/-- The full post-accept state including the published event. -/
def sampleAccepted : PolicyServiceState :=
  { sampleCommitted with
    publishedEvents := [⟨"POLICY_ISSUED", 1, 42, 1000⟩] }

def emptyConsumer : ConsumerState := ⟨[], [], [], 0, 0, []⟩

def dupMessage : QueueMessage := ⟨MessageBody.parsed "POLICY_ISSUED" 7 42 0, "rh-1"⟩

def poisonMessage : QueueMessage := ⟨MessageBody.malformed "not json", "rh-2"⟩

def expiredQuote : Quote := { sampleQuote with status := QuoteStatus.EXPIRED }

def expiredState : PolicyServiceState :=
  { quotes := [expiredQuote], policies := [], publishedEvents := [], nextPolicyId := 1 }

/-! ## Helper lemmas -/

/-- The sequential risk factor accumulation of the source equals the additive
decomposition described by the spec. -/
theorem calculatePremium_eq_formula (p : RiskProfile) (cov : ℚ) (t : Int) :
    calculatePremium p cov t
      = roundToTwoDecimals (cov * baseRate * riskMultiplier p / 12) := by
  obtain ⟨a, sm, o⟩ := p
  cases o <;> cases sm <;>
    simp only [calculatePremium, riskMultiplier, ageIncrement, occupationIncrement,
      reduceCtorEq, if_false, if_true, ite_false, ite_true] <;>
    split_ifs <;>
    (congr 1 <;> ring)

/-- Evaluation rule for the half-up rounding when the scaled value lands
exactly on an integer. -/
theorem roundToTwoDecimals_of_int (x : ℚ) (n : ℤ) (h : x * 100 + 1 / 2 = (n : ℚ)) :
    roundToTwoDecimals x = (n : ℚ) / 100 := by
  unfold roundToTwoDecimals
  rw [h, Int.floor_intCast]

theorem roundToTwoDecimals_mono {x y : ℚ} (h : x ≤ y) :
    roundToTwoDecimals x ≤ roundToTwoDecimals y := by
  unfold roundToTwoDecimals
  have hf : ⌊x * 100 + 1 / 2⌋ ≤ ⌊y * 100 + 1 / 2⌋ :=
    Int.floor_le_floor (by linarith)
  have hc : ((⌊x * 100 + 1 / 2⌋ : ℤ) : ℚ) ≤ ((⌊y * 100 + 1 / 2⌋ : ℤ) : ℚ) := by
    exact_mod_cast hf
  linarith

theorem ageIncrement_mono {a b : Nat} (h : a ≤ b) :
    ageIncrement a ≤ ageIncrement b := by
  unfold ageIncrement
  split_ifs <;> first | omega | norm_num

theorem premium_mono_in_multiplier {cov : ℚ} (hc : 0 < cov) {m1 m2 : ℚ}
    (hm : m1 ≤ m2) :
    roundToTwoDecimals (cov * baseRate * m1 / 12)
      ≤ roundToTwoDecimals (cov * baseRate * m2 / 12) := by
  apply roundToTwoDecimals_mono
  have hb : (0 : ℚ) < cov * baseRate := by
    have : (0 : ℚ) < baseRate := by norm_num [baseRate]
    positivity
  have hmul : cov * baseRate * m1 ≤ cov * baseRate * m2 :=
    mul_le_mul_of_nonneg_left hm (le_of_lt hb)
  linarith

/-! ## Claim theorems -/

/-- C4: for coverageAmount > 0 and termYears > 0, calculatePremium returns
coverageAmount * baseRate * multiplier / 12 rounded to two decimals with
round-half-up (roundToTwoDecimals is by definition the half-up rounding), where
the multiplier is 1.0 plus exactly one age bracket increment (+0.1 above 30,
+0.2 above 40, +0.3 above 50), plus 0.5 when smoker, plus the occupation
increment (+0.1 MEDIUM, +0.25 HIGH, 0 LOW). -/
theorem calculatePremium_matches_spec_formula (p : RiskProfile) (cov : ℚ)
    (t : Int) (hc : 0 < cov) (ht : 0 < t) :
    calculatePremium p cov t
      = roundToTwoDecimals (cov * baseRate * riskMultiplier p / 12) :=
  calculatePremium_eq_formula p cov t

/-- Witness for C4 at the spec scenario inputs. -/
theorem calculatePremium_matches_spec_formula_witness :
    calculatePremium ⟨35, false, OccupationRisk.LOW⟩ 10000000 20
      = roundToTwoDecimals (10000000 * baseRate
          * riskMultiplier ⟨35, false, OccupationRisk.LOW⟩ / 12) :=
  calculatePremium_matches_spec_formula ⟨35, false, OccupationRisk.LOW⟩
    10000000 20 (by norm_num) (by norm_num)

/-- C6 counterexample: calculatePremium does not reject a negative
coverageAmount with a validation failure; at coverageAmount = -1200 it returns
the numeric premium -0.05, so the engine never fails on non-positive inputs. -/
theorem calculatePremium_returns_value_on_negative_coverage :
    calculatePremium ⟨35, false, OccupationRisk.LOW⟩ (-1200) 10 = -1 / 20 := by
  rw [calculatePremium_eq_formula]
  have hm : riskMultiplier ⟨35, false, OccupationRisk.LOW⟩ = 11 / 10 := by
    simp [riskMultiplier, ageIncrement, occupationIncrement]
    norm_num
  rw [hm]
  have harg : (-1200 : ℚ) * baseRate * (11 / 10) / 12 = -11 / 200 := by
    norm_num [baseRate]
  rw [harg, roundToTwoDecimals_of_int (-11 / 200) (-5) (by norm_num)]
  norm_num

/-- C6 amended: input validation lives in the quote creation route, which
rejects non-positive coverageAmount or termYears, while calculatePremium
itself neither validates nor clamps: it applies the same pricing formula to
every input. -/
theorem validateQuoteInput_rejects_engine_does_not_clamp (p : RiskProfile)
    (cov : ℚ) (term : Int) :
    (cov ≤ 0 ∨ term ≤ 0 → validateQuoteInput cov term = false) ∧
    calculatePremium p cov term
      = roundToTwoDecimals (cov * baseRate * riskMultiplier p / 12) := by
  constructor
  · intro h
    simp only [validateQuoteInput, Bool.and_eq_false_iff, decide_eq_false_iff_not,
      not_lt]
    exact h
  · exact calculatePremium_eq_formula p cov term

/-- Witness for the amended C6 at coverageAmount = -1200. -/
theorem validateQuoteInput_rejects_engine_does_not_clamp_witness :
    validateQuoteInput (-1200) 10 = false :=
  (validateQuoteInput_rejects_engine_does_not_clamp
      ⟨35, false, OccupationRisk.LOW⟩ (-1200) 10).1 (Or.inl (by norm_num))

/-- C7: calculatePremium is deterministic for identical inputs and, for
positive coverage and term, monotonically non-decreasing in the age bracket,
in the smoker flag, and along the occupation tiers LOW, MEDIUM, HIGH, holding
the other inputs fixed. -/
theorem calculatePremium_deterministic_monotone (cov : ℚ) (t : Int)
    (hc : 0 < cov) (ht : 0 < t) :
    (∀ p : RiskProfile, calculatePremium p cov t = calculatePremium p cov t) ∧
    (∀ (a b : Nat) (sm : Bool) (o : OccupationRisk), a ≤ b →
      calculatePremium ⟨a, sm, o⟩ cov t ≤ calculatePremium ⟨b, sm, o⟩ cov t) ∧
    (∀ (a : Nat) (o : OccupationRisk),
      calculatePremium ⟨a, false, o⟩ cov t
        ≤ calculatePremium ⟨a, true, o⟩ cov t) ∧
    (∀ (a : Nat) (sm : Bool),
      calculatePremium ⟨a, sm, OccupationRisk.LOW⟩ cov t
        ≤ calculatePremium ⟨a, sm, OccupationRisk.MEDIUM⟩ cov t ∧
      calculatePremium ⟨a, sm, OccupationRisk.MEDIUM⟩ cov t
        ≤ calculatePremium ⟨a, sm, OccupationRisk.HIGH⟩ cov t) := by
  refine ⟨fun p => rfl, ?_, ?_, ?_⟩
  · intro a b sm o hab
    rw [calculatePremium_eq_formula, calculatePremium_eq_formula]
    apply premium_mono_in_multiplier hc
    unfold riskMultiplier
    linarith [ageIncrement_mono hab]
  · intro a o
    rw [calculatePremium_eq_formula, calculatePremium_eq_formula]
    apply premium_mono_in_multiplier hc
    simp only [riskMultiplier, Bool.false_eq_true, ite_false, ite_true, if_false,
      if_true]
    linarith
  · intro a sm
    constructor <;>
      (rw [calculatePremium_eq_formula, calculatePremium_eq_formula];
       apply premium_mono_in_multiplier hc;
       simp only [riskMultiplier, occupationIncrement];
       linarith)

theorem find?_map_acceptUpdate (qs : List Quote) (qid : Nat) :
    (qs.map (acceptUpdate qid)).find? (fun q => q.id == qid)
      = (qs.find? (fun q => q.id == qid)).map
          (fun q => { q with status := QuoteStatus.ACCEPTED }) := by
  induction qs with
  | nil => rfl
  | cons q rest ih =>
    by_cases h : q.id = qid
    · simp [List.find?_cons, acceptUpdate, h]
    · simp [List.find?_cons, acceptUpdate, h, ih]

theorem findQuote_publish (s : PolicyServiceState) (p : Policy) (n : Nat)
    (qid : Nat) :
    findQuote (publishPolicyIssued s p n) qid = findQuote s qid := rfl

/-- C1 counterexample: on a concrete PENDING quote, the committed transaction
state of acceptQuote holds the new Policy (one policy row) but no event record
of any kind (zero published or outbox events): the POLICY_ISSUED event is not
part of the atomic transaction. -/
theorem acceptQuoteCommit_contains_no_event_record :
    Except.map (fun r => (r.1.policies.length, r.1.publishedEvents.length))
        (acceptQuoteCommit sampleState 1 sampleDate 1000)
      = Except.ok (1, 0) := rfl

/-- C1 amended: the atomic transaction of acceptQuote covers only the Policy
insert and the Quote update; the POLICY_ISSUED event is published to SQS only
after the transaction commits, so the committed state carries no event record,
and no OutboxEvent table exists. -/
theorem acceptQuote_event_outside_transaction (s : PolicyServiceState)
    (qid : Nat) (d : Date) (n : Nat) (s1 : PolicyServiceState) (p : Policy)
    (h : acceptQuoteCommit s qid d n = Except.ok (s1, p)) :
    s1.publishedEvents = s.publishedEvents ∧
    s1.policies = s.policies ++ [p] ∧
    acceptQuote s qid d n = Except.ok (publishPolicyIssued s1 p n, p) := by
  unfold acceptQuoteCommit at h
  split at h
  · simp at h
  · rename_i quote hfind
    split at h
    · simp at h
    · rename_i hstatus
      simp only [Except.ok.injEq, Prod.mk.injEq] at h
      obtain ⟨hs, hp⟩ := h
      subst hs
      subst hp
      refine ⟨rfl, rfl, ?_⟩
      unfold acceptQuote acceptQuoteCommit
      rw [hfind]
      simp [hstatus]

/-- Witness for the amended C1 at the sample state. -/
theorem acceptQuote_event_outside_transaction_witness :
    sampleCommitted.publishedEvents = sampleState.publishedEvents ∧
    sampleCommitted.policies = sampleState.policies ++ [samplePolicy] ∧
    acceptQuote sampleState 1 sampleDate 1000
      = Except.ok
          (publishPolicyIssued sampleCommitted samplePolicy 1000, samplePolicy) :=
  acceptQuote_event_outside_transaction sampleState 1 sampleDate 1000
    sampleCommitted samplePolicy (by rfl)

/-- C2: accepting a quote whose status is not PENDING fails with
InvalidStateTransition and, the error carrying no state, creates nothing; and
after a successful acceptQuote every further acceptQuote on the same quote id
fails with InvalidStateTransition, so two sequential calls give exactly one
success and one conflict and at most one Policy is ever issued per Quote. -/
theorem acceptQuote_conflict_on_nonPending (s : PolicyServiceState) (qid : Nat)
    (d : Date) (n : Nat) :
    (∀ q, findQuote s qid = some q → q.status ≠ QuoteStatus.PENDING →
        acceptQuote s qid d n = Except.error AcceptError.InvalidStateTransition) ∧
    (∀ s1 p (d2 : Date) (n2 : Nat), acceptQuote s qid d n = Except.ok (s1, p) →
        acceptQuote s1 qid d2 n2
          = Except.error AcceptError.InvalidStateTransition) := by
  constructor
  · intro q hq hst
    unfold acceptQuote acceptQuoteCommit
    rw [hq]
    simp [hst]
  · intro s1 p d2 n2 hok
    unfold acceptQuote at hok
    split at hok
    · simp at hok
    · rename_i committed policy heq
      simp only [Except.ok.injEq, Prod.mk.injEq] at hok
      obtain ⟨hs1, hp⟩ := hok
      subst hs1
      unfold acceptQuoteCommit at heq
      split at heq
      · simp at heq
      · rename_i quote hfind
        split at heq
        · simp at heq
        · rename_i hstatus
          simp only [Except.ok.injEq, Prod.mk.injEq] at heq
          obtain ⟨hc, hpol⟩ := heq
          subst hc
          unfold acceptQuote acceptQuoteCommit
          simp only [publishPolicyIssued, findQuote]
          rw [find?_map_acceptUpdate]
          rw [show s.quotes.find? (fun q2 => q2.id == qid) = some quote from hfind]
          simp

/-- Witness for C2: a conflict on an EXPIRED quote, and a conflict on the
second of two sequential accepts of the same pending quote. -/
theorem acceptQuote_conflict_on_nonPending_witness :
    acceptQuote expiredState 1 sampleDate 1000
      = Except.error AcceptError.InvalidStateTransition ∧
    acceptQuote sampleAccepted 1 sampleDate 1000
      = Except.error AcceptError.InvalidStateTransition :=
  ⟨(acceptQuote_conflict_on_nonPending expiredState 1 sampleDate 1000).1
      expiredQuote rfl (by decide),
   (acceptQuote_conflict_on_nonPending sampleState 1 sampleDate 1000).2
      sampleAccepted samplePolicy sampleDate 1000 (by rfl)⟩

/-- C5: a successful acceptQuote on a PENDING quote returns a Policy with
status ACTIVE whose endDate is startDate plus the source Quote termYears,
flips the Quote to ACCEPTED, and publishes exactly one POLICY_ISSUED event. -/
theorem acceptQuote_pending_succeeds (s : PolicyServiceState) (qid : Nat)
    (d : Date) (n : Nat) (q : Quote) (hq : findQuote s qid = some q)
    (hst : q.status = QuoteStatus.PENDING) :
    ∃ s1 p, acceptQuote s qid d n = Except.ok (s1, p) ∧
      p.status = PolicyStatus.ACTIVE ∧
      p.startDate = d ∧
      p.endDate = d.addYears q.termYears ∧
      (findQuote s1 qid).map Quote.status = some QuoteStatus.ACCEPTED ∧
      s1.publishedEvents = s.publishedEvents
        ++ [{ type := "POLICY_ISSUED", policyId := p.id,
              customerId := p.customerId, issuedAt := n }] ∧
      s1.policies = s.policies ++ [p] := by
  unfold acceptQuote acceptQuoteCommit
  rw [hq]
  simp only [hst, ne_eq, not_true_eq_false, if_false, ite_false]
  refine ⟨_, _, rfl, rfl, rfl, rfl, ?_, rfl, rfl⟩
  simp only [publishPolicyIssued, findQuote]
  rw [find?_map_acceptUpdate]
  rw [show s.quotes.find? (fun q2 => q2.id == qid) = some q from hq]
  rfl

/-- Witness for C5 at the sample pending quote. -/
theorem acceptQuote_pending_succeeds_witness :
    ∃ s1 p, acceptQuote sampleState 1 sampleDate 1000 = Except.ok (s1, p) ∧
      p.status = PolicyStatus.ACTIVE ∧
      p.startDate = sampleDate ∧
      p.endDate = sampleDate.addYears sampleQuote.termYears ∧
      (findQuote s1 1).map Quote.status = some QuoteStatus.ACCEPTED ∧
      s1.publishedEvents = sampleState.publishedEvents
        ++ [{ type := "POLICY_ISSUED", policyId := p.id,
              customerId := p.customerId, issuedAt := 1000 }] ∧
      s1.policies = sampleState.policies ++ [p] :=
  acceptQuote_pending_succeeds sampleState 1 sampleDate 1000 sampleQuote rfl rfl

/-- Witness for C7: concrete monotonicity instances at the spec scenario. -/
theorem calculatePremium_deterministic_monotone_witness :
    calculatePremium ⟨35, false, OccupationRisk.LOW⟩ 10000000 20
      ≤ calculatePremium ⟨45, false, OccupationRisk.LOW⟩ 10000000 20 ∧
    calculatePremium ⟨35, false, OccupationRisk.LOW⟩ 10000000 20
      ≤ calculatePremium ⟨35, true, OccupationRisk.LOW⟩ 10000000 20 :=
  ⟨(calculatePremium_deterministic_monotone 10000000 20 (by norm_num)
      (by norm_num)).2.1 35 45 false OccupationRisk.LOW (by norm_num),
   (calculatePremium_deterministic_monotone 10000000 20 (by norm_num)
      (by norm_num)).2.2.1 35 OccupationRisk.LOW⟩

theorem pollBatch_length (s : ConsumerState) (msgs : List QueueMessage) :
    (pollBatch s msgs).2.length = msgs.length := by
  induction msgs generalizing s with
  | nil => rfl
  | cons m rest ih => simp [pollBatch, ih]

/-- C3 counterexample: delivering the same POLICY_ISSUED message twice makes
the consumer perform the welcome notification side effect twice and delete the
message twice; it has no dedup ledger to consult, so the second delivery does
not short-circuit. -/
theorem consumer_double_delivery_two_side_effects :
    (pollBatch emptyConsumer [dupMessage, dupMessage]).1.sideEffects
      = [⟨7, 42⟩, ⟨7, 42⟩] ∧
    (pollBatch emptyConsumer [dupMessage, dupMessage]).2 = [true, true] :=
  ⟨rfl, rfl⟩

/-- C3 amended: the consumer keeps no dedup ledger; every delivery of the same
POLICY_ISSUED message performs the notification side effect again and deletes
the message, so two deliveries append two side effect entries. -/
theorem consumer_no_dedup_repeats_side_effect (s : ConsumerState)
    (pid cid t : Nat) (rh : String) :
    (pollBatch s [⟨MessageBody.parsed "POLICY_ISSUED" pid cid t, rh⟩,
        ⟨MessageBody.parsed "POLICY_ISSUED" pid cid t, rh⟩]).1.sideEffects
      = s.sideEffects ++ [⟨pid, cid⟩, ⟨pid, cid⟩] ∧
    (pollBatch s [⟨MessageBody.parsed "POLICY_ISSUED" pid cid t, rh⟩,
        ⟨MessageBody.parsed "POLICY_ISSUED" pid cid t, rh⟩]).2
      = [true, true] := by
  constructor <;>
    simp [pollBatch, processMessage, handleMessage, List.append_assoc]

/-- C8 counterexample: an unparseable message is not routed to any dead letter
path by the consumer: it is simply not deleted (left for broker redelivery,
like any other failure) while the failed counter is incremented, and the loop
still processes the following message. -/
theorem consumer_parse_failure_not_dead_lettered :
    (processMessage emptyConsumer poisonMessage).2 = false ∧
    (processMessage emptyConsumer poisonMessage).1.deadLetterQueue = [] ∧
    (processMessage emptyConsumer poisonMessage).1.failedCount = 1 ∧
    (pollBatch emptyConsumer [poisonMessage, dupMessage]).2 = [false, true] :=
  ⟨rfl, rfl, rfl, rfl⟩

/-- C8 amended: the consumer handles every failure uniformly: the polling loop
never crashes and yields an outcome for every message of a batch; a message is
deleted exactly on handleMessage success (after its side effect); on any
failure, parse failure included, the message is not deleted, nothing is moved
to a dead letter path, no side effect happens, and the failed counter is
incremented; a malformed body is exactly a parse failure. -/
theorem consumer_uniform_failure_handling (s : ConsumerState) :
    (∀ msgs : List QueueMessage, (pollBatch s msgs).2.length = msgs.length) ∧
    (∀ m s1, handleMessage s m = Except.ok s1 →
        processMessage s m
          = ({ s1 with processedCount := s1.processedCount + 1 }, true)) ∧
    (∀ m e, handleMessage s m = Except.error e →
        (processMessage s m).2 = false ∧
        (processMessage s m).1.deadLetterQueue = s.deadLetterQueue ∧
        (processMessage s m).1.sideEffects = s.sideEffects ∧
        (processMessage s m).1.failedCount = s.failedCount + 1) ∧
    (∀ raw rh, handleMessage s ⟨MessageBody.malformed raw, rh⟩
        = Except.error HandleError.parseFailure) := by
  refine ⟨fun msgs => pollBatch_length s msgs, ?_, ?_, fun raw rh => rfl⟩
  · intro m s1 h
    simp [processMessage, h]
  · intro m e h
    simp [processMessage, h]

/-- Witness for the amended C8 at the poison message. -/
theorem consumer_uniform_failure_handling_witness :
    (pollBatch emptyConsumer [poisonMessage, dupMessage]).2.length = 2 ∧
    (processMessage emptyConsumer poisonMessage).2 = false ∧
    (processMessage emptyConsumer poisonMessage).1.deadLetterQueue
      = emptyConsumer.deadLetterQueue :=
  ⟨(consumer_uniform_failure_handling emptyConsumer).1 [poisonMessage, dupMessage],
   ((consumer_uniform_failure_handling emptyConsumer).2.2.1 poisonMessage
      HandleError.parseFailure rfl).1,
   ((consumer_uniform_failure_handling emptyConsumer).2.2.1 poisonMessage
      HandleError.parseFailure rfl).2.1⟩

/-- C9: the middleware stores the same value on the request and in the
X-Request-Id response header; a present non-empty incoming x-request-id header
is echoed unchanged; an absent or empty header is replaced by the fresh uuid,
so every response carries an X-Request-Id. -/
theorem requestId_echo_or_fresh (inc : Option String) (fresh : String) :
    (requestIdMiddleware inc fresh).reqRequestId
      = (requestIdMiddleware inc fresh).responseHeader ∧
    (∀ v, inc = some v → v ≠ "" →
        (requestIdMiddleware inc fresh).responseHeader = v) ∧
    (inc = none ∨ inc = some "" →
        (requestIdMiddleware inc fresh).responseHeader = fresh) := by
  refine ⟨rfl, ?_, ?_⟩
  · intro v hv hne
    subst hv
    simp [requestIdMiddleware, jsStringOr, hne]
  · intro h
    rcases h with h | h <;> subst h <;> rfl

/-- Witness for C9: echo of a client id and generation of a fresh one. -/
theorem requestId_echo_or_fresh_witness :
    (requestIdMiddleware (some "abc") "u-1").responseHeader = "abc" ∧
    (requestIdMiddleware none "u-1").responseHeader = "u-1" :=
  ⟨(requestId_echo_or_fresh (some "abc") "u-1").2.1 "abc" rfl (by decide),
   (requestId_echo_or_fresh none "u-1").2.2 (Or.inl rfl)⟩

/-- C10: every error produces exactly the 500 INTERNAL_ERROR response with the
fixed message, the error message and stack go to the server side log, and the
response is the same whatever the error, so the error details never reach the
client. -/
theorem errorHandler_fixed_500_response (err : JsError) (rid : String) :
    (errorHandler err rid).2
      = { status := 500, errorCode := "INTERNAL_ERROR",
          message := "Unexpected server error" } ∧
    (errorHandler err rid).1.errorMessage = err.message ∧
    (errorHandler err rid).1.errorStack = err.stack ∧
    (∀ (e2 : JsError) (r2 : String),
        (errorHandler err rid).2 = (errorHandler e2 r2).2) :=
  ⟨rfl, rfl, rfl, fun _ _ => rfl⟩

end LifeShield
